import Mathlib

/-!
Verification development for the film-locations map application
(`film_map_app.py`).  The file shallowly embeds the two core components:

* `load_and_parse_xml_data` — the tolerant spreadsheet-XML record extractor
  (source lines 19–86), modelled over an abstract document structure that
  mirrors exactly the queries the code performs (worksheets by name, the
  worksheet's table, the table's rows, each row's direct `Cell` children,
  each cell's optional `Data` element with optional text).
* `geocode_location` — the geocoding wrapper (source lines 94–109), with the
  geopy `RateLimiter` modelled as an explicit last-call-time state machine,
  the outgoing requests made observable, and the `st.cache_data` memoisation
  modelled as an explicit query-keyed cache.

Machine floats are modelled by `PyFloat`: Python's `float(str)` conversion is
embedded as a parser producing either a classification (`pinf`, `ninf`,
`nan`) or the exact decimal rational value of the literal.  Values whose
magnitude reaches the double-precision overflow threshold classify as
infinities, as CPython's conversion does.  (Digit-group underscores, legal in
Python numeric strings since 3.6, are not modelled; no input in this
development uses them.)
-/

set_option maxRecDepth 8192

set_option exponentiation.threshold 1100

deriving instance DecidableEq for Except

namespace FilmMap

/-! ### Python float model -/

/-- Result of a successful Python `float(str)` conversion: a finite value
(represented exactly by a gcd-reduced integer numerator and positive
denominator — the rational value of the decimal literal), an infinity, or a
NaN. -/
inductive PyFloat where
  | finite (num : ℤ) (den : ℕ)
  | pinf
  | ninf
  | nan
deriving DecidableEq

/-- Finiteness test, as `math.isfinite` would report it. -/
def PyFloat.isFinite : PyFloat → Bool
  | .finite _ _ => true
  | _ => false

/-- Whitespace characters stripped by Python's `float(str)` (ASCII subset). -/
def isPySpace (c : Char) : Bool :=
  c = ' ' ∨ c = '\t' ∨ c = '\n' ∨ c = '\r' ∨ c.toNat = 11 ∨ c.toNat = 12

/-- Numeric value of a list of decimal digit characters. -/
def digitsVal (l : List Char) : ℕ :=
  l.foldl (fun n c => 10 * n + (c.toNat - 48)) 0

/-- Parse an unsigned decimal literal `digits [. digits] [(e|E) [sign] digits]`,
requiring at least one mantissa digit and no trailing characters.  Returns the
exact value as an unreduced numerator/denominator pair of naturals, or `none`
when CPython would raise `ValueError`. -/
def parseDecimal (l : List Char) : Option (ℕ × ℕ) :=
  let ip := l.takeWhile Char.isDigit
  let r1 := l.dropWhile Char.isDigit
  let fp := match r1 with
    | '.' :: rest => rest.takeWhile Char.isDigit
    | _ => []
  let r2 := match r1 with
    | '.' :: rest => rest.dropWhile Char.isDigit
    | _ => r1
  if ip.isEmpty ∧ fp.isEmpty then none
  else
    let digits := digitsVal ip * 10 ^ fp.length + digitsVal fp
    match r2 with
    | [] => some (digits, 10 ^ fp.length)
    | e :: rest =>
      if e = 'e' ∨ e = 'E' then
        let eneg : Bool := match rest with
          | '-' :: _ => true
          | _ => false
        let rest2 := match rest with
          | '+' :: t => t
          | '-' :: t => t
          | t => t
        let ed := rest2.takeWhile Char.isDigit
        let r3 := rest2.dropWhile Char.isDigit
        if ed.isEmpty ∨ ¬ r3.isEmpty then none
        else if eneg then some (digits, 10 ^ fp.length * 10 ^ digitsVal ed)
        else some (digits * 10 ^ digitsVal ed, 10 ^ fp.length)
      else none

/-- Smallest magnitude at which round-to-nearest-even double conversion
overflows to infinity. -/
def overflowBound : ℕ := 2 ^ 1024 - 2 ^ 970

/-- Reduce a parsed magnitude to lowest terms and attach the sign. -/
def mkFiniteReduced (neg : Bool) (n d : ℕ) : PyFloat :=
  let g := Nat.gcd n d
  if neg then .finite (-(n / g : ℕ) : ℤ) (d / g) else .finite ((n / g : ℕ) : ℤ) (d / g)

/-- Python's `float(str)`: strip whitespace, take an optional sign, accept the
keywords `inf`/`infinity`/`nan` case-insensitively, otherwise parse a decimal
literal, overflowing to an infinity at the double-conversion threshold;
`none` models a raised `ValueError`. -/
def pyFloat? (s : String) : Option PyFloat :=
  let l := ((s.data.dropWhile isPySpace).reverse.dropWhile isPySpace).reverse
  let neg : Bool := match l with
    | '-' :: _ => true
    | _ => false
  let body := match l with
    | '+' :: t => t
    | '-' :: t => t
    | t => t
  let lower := body.map Char.toLower
  if lower = "inf".data ∨ lower = "infinity".data then
    some (if neg then .ninf else .pinf)
  else if lower = "nan".data then some .nan
  else
    match parseDecimal body with
    | none => none
    | some nd =>
      if overflowBound * nd.2 ≤ nd.1 then some (if neg then .ninf else .pinf)
      else some (mkFiniteReduced neg nd.1 nd.2)

/-! ### Location-text cleaning (source line 50)

`re.sub('<[^>]+>', ', ', s).replace(', ,', ', ').strip(', ')` -/

/-- Split a character list at its first `'>'`: the characters strictly before
it and the characters after it. -/
def findGt : List Char → Option (List Char × List Char)
  | [] => none
  | c :: cs =>
    if c = '>' then some ([], cs)
    else
      match findGt cs with
      | some (m, r) => some (c :: m, r)
      | none => none

theorem findGt_length_lt : ∀ (l m r : List Char), findGt l = some (m, r) → r.length < l.length := by
  intro l
  induction l with
  | nil => intro m r h; simp [findGt] at h
  | cons c cs ih =>
    intro m r h
    by_cases hc : c = '>'
    · simp [findGt, hc] at h
      rw [← h.2]
      simp
    · simp only [findGt, if_neg hc] at h
      cases hg : findGt cs with
      | none => rw [hg] at h; simp at h
      | some p =>
        rw [hg] at h
        simp at h
        have hlt := ih p.1 p.2 (by rw [hg])
        rw [h.2] at hlt
        simp only [List.length_cons]
        omega

/-- Fuel-indexed worker for `subTags`; each step consumes at least one input
character, so fuel `l.length` makes the fuel-exhausted clause unreachable. -/
def subTagsF : ℕ → List Char → List Char
  | 0, l => l
  | _ + 1, [] => []
  | f + 1, c :: cs =>
    if c = '<' then
      match findGt cs with
      | some (m, r) => if m.isEmpty then c :: subTagsF f cs else ',' :: ' ' :: subTagsF f r
      | none => c :: subTagsF f cs
    else c :: subTagsF f cs

/-- `re.sub('<[^>]+>', ', ', ·)`: each occurrence of `'<'`, one or more
non-`'>'` characters, then `'>'` is replaced by a comma-space; a `'<'` not
starting such a span is kept. -/
def subTags (l : List Char) : List Char := subTagsF l.length l

/-- Python `str.replace(', ,', ', ')`: non-overlapping occurrences replaced
left to right, the replacement text not rescanned. -/
def replaceDupComma : List Char → List Char
  | ',' :: ' ' :: ',' :: rest => ',' :: ' ' :: replaceDupComma rest
  | c :: rest => c :: replaceDupComma rest
  | [] => []

/-- Python `str.strip(', ')`: drop leading and trailing characters drawn from
the set { comma, space }. -/
def stripCommaSpace (l : List Char) : List Char :=
  let inSet : Char → Bool := fun c => c = ',' ∨ c = ' '
  ((l.dropWhile inSet).reverse.dropWhile inSet).reverse

/-- The full cleaning chain applied to a location cell's text
(source line 50). -/
def cleanLocationText (s : String) : String :=
  ⟨stripCommaSpace (replaceDupComma (subTags s.data))⟩

/-! ### Spreadsheet-XML document model

The structures keep exactly what the extractor queries: a cell's optional
`Data` child with its optional text (`ElementTree` reports the text of an
empty element as Python `None`), a row's direct cells, a worksheet's optional
name attribute and optional table. -/

/-- A `Cell` element: `data = none` when no `ss:Data` child exists;
`data = some none` when the child exists with null text. -/
structure Cell where
  data : Option (Option String)
deriving DecidableEq

/-- A `Row` element with its direct `ss:Cell` children, in document order. -/
structure Row where
  cells : List Cell
deriving DecidableEq

/-- A `Table` element with its `ss:Row` descendants, in document order. -/
structure Table where
  rows : List Row
deriving DecidableEq

/-- A `Worksheet` element: its `ss:Name` attribute and first `ss:Table`
descendant, when present. -/
structure Worksheet where
  name : Option String
  table : Option Table
deriving DecidableEq

/-- A parsed document: its `ss:Worksheet` descendants in document order. -/
structure Document where
  worksheets : List Worksheet
deriving DecidableEq

/-- One validated film-location record (dictionary appended at source
lines 68–75).  `film`, `borough`, `neighborhood` are Python `str`-or-`None`
values, hence `Option String`. -/
structure LocationRecord where
  film : Option String
  locationDisplayText : String
  latitude : PyFloat
  longitude : PyFloat
  borough : Option String
  neighborhood : Option String
deriving DecidableEq

/-- `cells[i].find('ss:Data')` composed with `.text`: `none` when the index is
out of range or the cell has no `Data` child; `some t` gives the child's
optional text. -/
def cellDataText (cells : List Cell) (i : ℕ) : Option (Option String) :=
  (cells[i]?).bind Cell.data

/-- `film = film_cell.text if film_cell is not None else 'N/A'`
(source lines 44–45). -/
def filmOf (row : Row) : Option String :=
  match cellDataText row.cells 0 with
  | none => some "N/A"
  | some t => t

/-- Cleaned location text (source lines 47–50): `none` models the uncaught
`TypeError` raised by `re.sub` on a `Data` element whose text is Python
`None`. -/
def locationTextOf (row : Row) : Option String :=
  let raw : Option String := match cellDataText row.cells 8 with
    | none => some ""
    | some t => t
  match raw with
  | none => none
  | some s => some (cleanLocationText s)

/-- `lat_str` (source lines 52–53). -/
def latStrOf (row : Row) : Option String :=
  match cellDataText row.cells 9 with
  | none => none
  | some t => t

/-- `lon_str` (source lines 55–56). -/
def lonStrOf (row : Row) : Option String :=
  match cellDataText row.cells 10 with
  | none => none
  | some t => t

/-- `borough` (source lines 58–59). -/
def boroughOf (row : Row) : Option String :=
  match cellDataText row.cells 11 with
  | none => some "N/A"
  | some t => t

/-- `neighborhood` (source lines 61–62). -/
def neighborhoodOf (row : Row) : Option String :=
  match cellDataText row.cells 12 with
  | none => some "N/A"
  | some t => t

/-- `float(s) if s else None` (source lines 64–65): a missing or empty (falsy)
string yields `None` without attempting conversion; otherwise a failed
conversion raises `ValueError`, modelled by `Except.error`. -/
def pyFloatIfTruthy (s? : Option String) : Except Unit (Option PyFloat) :=
  match s? with
  | none => .ok none
  | some s =>
    if s = "" then .ok none
    else
      match pyFloat? s with
      | some f => .ok (some f)
      | none => .error ()

/-- Outcome of processing one data row: a record appended, the row silently
skipped (guard failed or a caught `ValueError`/`IndexError`/`AttributeError`
hit `continue`), or an uncaught exception aborting the whole extraction. -/
inductive RowOutcome where
  | record (r : LocationRecord)
  | skip
  | fatal
deriving DecidableEq

/-- The body of the per-row loop (source lines 41–77): require at least 13
cells, extract the positional fields, clean the location text (where a
null-text `Data` element raises an uncaught `TypeError`), convert the
coordinates (a `ValueError` skips the row), and append the record only when
both coordinates are present and the film is not the `'N/A'` sentinel. -/
def rowStep (row : Row) : RowOutcome :=
  if 13 ≤ row.cells.length then
    match locationTextOf row with
    | none => .fatal
    | some locText =>
      match pyFloatIfTruthy (latStrOf row), pyFloatIfTruthy (lonStrOf row) with
      | .error _, _ => .skip
      | .ok _, .error _ => .skip
      | .ok lat?, .ok lon? =>
        match lat?, lon? with
        | some la, some lo =>
          if filmOf row ≠ some "N/A" then
            .record ⟨filmOf row, locText, la, lo, boroughOf row, neighborhoodOf row⟩
          else .skip
        | _, _ => .skip
  else .skip

/-- The record accessor used to state order preservation: the record a row
contributes, if any. -/
def rowRecord? (row : Row) : Option LocationRecord :=
  match rowStep row with
  | .record r => some r
  | _ => none

/-- The accumulating loop over the data rows (`locations_data.append`, source
lines 40–77): `none` models an uncaught exception reaching the outer handler
and discarding everything accumulated so far. -/
def processRowsAux (acc : List LocationRecord) : List Row → Option (List LocationRecord)
  | [] => some acc
  | r :: rs =>
    match rowStep r with
    | .fatal => none
    | .skip => processRowsAux acc rs
    | .record rec => processRowsAux (acc ++ [rec]) rs

/-- The distinct failure exits of `load_and_parse_xml_data`, one per return
site: the comments at source lines 32, 35, 38 name the first three;
`noValidRows` is the empty-accumulator exit at line 82 and `processingError`
the outer exception handler at lines 84–86.  The Python caller observes all
of them as `None`. -/
inductive ExtractErr where
  | worksheetNotFound
  | tableNotFound
  | notEnoughRows
  | noValidRows
  | processingError
deriving DecidableEq

/-- The spec's `MissingSection` condition: required worksheet or table not
found. -/
def ExtractErr.isMissingSection : ExtractErr → Bool
  | .worksheetNotFound => true
  | .tableNotFound => true
  | _ => false

/-- The spec's `EmptyResult` condition: document parsed but no valid data
rows (header-only document or all rows rejected). -/
def ExtractErr.isEmptyResult : ExtractErr → Bool
  | .notEnoughRows => true
  | .noValidRows => true
  | _ => false

/-- The worksheet selection predicate (source line 28). -/
def wsMatch (ws : Worksheet) : Bool := ws.name = some "Full Map List"

/-- `load_and_parse_xml_data` (source lines 19–86) over a parsed document:
find the worksheet named `"Full Map List"`, its table, require more than
three rows, skip the three header rows, run the tolerant row loop, and fail
with `noValidRows` when the accumulator stayed empty (`if locations_data:`,
line 79). -/
def load_and_parse_xml_data (doc : Document) : Except ExtractErr (List LocationRecord) :=
  match doc.worksheets.find? wsMatch with
  | none => .error .worksheetNotFound
  | some ws =>
    match ws.table with
    | none => .error .tableNotFound
    | some t =>
      if t.rows.length ≤ 3 then .error .notEnoughRows
      else
        match processRowsAux [] (t.rows.drop 3) with
        | none => .error .processingError
        | some [] => .error .noValidRows
        | some l => .ok l

/-- `data_df` as the caller sees it (source line 116): the record set, or
`None` on any extraction failure — in which case the app stops
(source lines 122–124). -/
def data_df (doc : Document) : Option (List LocationRecord) :=
  (load_and_parse_xml_data doc).toOption

/-! ### Geocode lookup (source lines 88–109)

The external provider (`Nominatim.geocode`) is abstracted as a function from
query text to a reply; the model records every outgoing request together with
the clock time at which it is issued, so that rate-limit spacing is
observable.  Time is an injected clock value passed to each lookup. -/

/-- A provider reply: a located coordinate pair, a valid "no match" response,
or a raised error/timeout. -/
inductive GeoReply where
  | found (lat lon : ℚ)
  | notFound
  | failure
deriving DecidableEq

/-- One outgoing geocoding request: the query sent and the clock time at
which it goes out. -/
structure GeoRequest where
  query : String
  time : ℚ
deriving DecidableEq

/-- geopy `RateLimiter` state: the clock time of the last call made through
this limiter instance, and its configured minimum delay. -/
structure RateLimiterState where
  last : Option ℚ
  minDelay : ℚ
deriving DecidableEq

/-- One call through a `RateLimiter` at clock time `now`: a first call fires
immediately; a later call is postponed until `minDelay` after the previous
one.  Returns the firing time and the updated limiter state. -/
def rateLimiterAcquire (st : RateLimiterState) (now : ℚ) : ℚ × RateLimiterState :=
  match st.last with
  | none => (now, ⟨some now, st.minDelay⟩)
  | some t =>
    let fire := max now (t + st.minDelay)
    (fire, ⟨some fire, st.minDelay⟩)

/-- `RateLimiter(_geolocator.geocode, min_delay_seconds=1)` as constructed at
source line 100: a brand-new limiter with no last-call memory. -/
def freshRateLimiter : RateLimiterState := ⟨none, 1⟩

/-- The body of `geocode_location` (source lines 95–109): an empty (falsy)
query returns `None` with no request; otherwise a `RateLimiter` is
constructed inside the call and the single request is issued through it,
firing immediately since the fresh limiter has no last-call state.  The
limiter's updated state is a local value and is discarded when the call
returns.  Provider "not found" and provider failure both return `None`
(after a sidebar advisory, not modelled).  The second component lists the
outgoing requests the call made. -/
def geocode_location (provider : String → GeoReply) (query : String) (now : ℚ) :
    Option (ℚ × ℚ) × List GeoRequest :=
  if query = "" then (none, [])
  else
    let fired := rateLimiterAcquire freshRateLimiter now
    let reqs := [⟨query, fired.1⟩]
    match provider query with
    | .found la lo => (some (la, lo), reqs)
    | .notFound => (none, reqs)
    | .failure => (none, reqs)

/-- The `st.cache_data` memoisation table for `geocode_location`, keyed by the
query string (the `_geolocator` parameter's leading underscore excludes it
from the cache key); entries persist for the process lifetime. -/
abbrev GeoCache := List (String × Option (ℚ × ℚ))

/-- A lookup through the `st.cache_data` wrapper (source line 94): a cache hit
returns the stored outcome — including a stored `None` — with no provider
invocation; a miss runs `geocode_location` and stores whatever it returned. -/
def geocode_location_cached (provider : String → GeoReply) (cache : GeoCache)
    (query : String) (now : ℚ) : Option (ℚ × ℚ) × GeoCache × List GeoRequest :=
  match cache.lookup query with
  | some v => (v, cache, [])
  | none =>
    let res := geocode_location provider query now
    (res.1, cache ++ [(query, res.1)], res.2)

/-- A sequence of lookups against the cached component, each with the clock
time at which the user issues it; returns the final cache and every outgoing
request of the whole run in order. -/
def runLookups (provider : String → GeoReply) :
    GeoCache → List (String × ℚ) → GeoCache × List GeoRequest
  | cache, [] => (cache, [])
  | cache, (q, t) :: rest =>
    let step := geocode_location_cached provider cache q t
    let tail := runLookups provider step.2.1 rest
    (tail.1, step.2.2 ++ tail.2)

/-- Consecutive outgoing requests are spaced by at least `d` seconds. -/
def spacedBy (d : ℚ) (reqs : List GeoRequest) : Prop :=
  List.Chain' (fun a b => a.time + d ≤ b.time) reqs

/-- A query that Python's `str.strip()` would reduce to the empty string:
empty or whitespace-only. -/
def isWhitespaceOnly (q : String) : Bool := q.data.all isPySpace

/-! ### Presentation shell boundary (source lines 139–198)

The marker-plotting loop and the raw-data table only read the record set. -/

/-- One folium marker as built by the loop at source lines 148–176 (popup and
tooltip string formatting elided: the marker keeps the record fields it
renders). -/
structure Marker where
  lat : PyFloat
  lon : PyFloat
  film : Option String
  locationText : String
  borough : Option String
  neighborhood : Option String
deriving DecidableEq

/-- The marker built from one record. -/
def mkMarker (r : LocationRecord) : Marker :=
  ⟨r.latitude, r.longitude, r.film, r.locationDisplayText, r.borough, r.neighborhood⟩

/-- The plotting loop (source lines 147–176): one marker per record in order,
with `count` incremented per plotted marker. -/
def plotLoop : List LocationRecord → List Marker × ℕ
  | [] => ([], 0)
  | r :: rs =>
    let rest := plotLoop rs
    (mkMarker r :: rest.1, rest.2 + 1)

/-- The table shown by the "Show Raw Data Table" checkbox (source
lines 197–198): it displays `data_df` itself. -/
def shownTable (doc : Document) : Option (List LocationRecord) := data_df doc

/-- The extraction error, when extraction failed. -/
def loadError? (doc : Document) : Option ExtractErr :=
  match load_and_parse_xml_data doc with
  | .error e => some e
  | .ok _ => none

/-! ### Concrete test fixtures -/

/-- A cell holding a `Data` element with the given text. -/
def dCell (s : String) : Cell := ⟨some (some s)⟩

/-- A cell with no `Data` element. -/
def eCell : Cell := ⟨none⟩

/-- A 13-cell data row with the given film, location, latitude and longitude
cells in the positions the extractor reads (0, 8, 9, 10); the remaining cells
carry no data. -/
def mkDataRow (film loc lat lon : Cell) : Row :=
  ⟨[film, eCell, eCell, eCell, eCell, eCell, eCell, eCell, loc, lat, lon, eCell, eCell]⟩

/-- An empty header row. -/
def headerRow : Row := ⟨[]⟩

/-- A header row with arbitrary content, to exercise unconditional skipping. -/
def junkRow : Row := ⟨[dCell "anything", dCell "at all"]⟩

/-- A single-worksheet document named `"Full Map List"` over the given rows. -/
def mkDoc (rows : List Row) : Document :=
  ⟨[⟨some "Full Map List", some ⟨rows⟩⟩]⟩

/-- The valid data row of the end-to-end example: film `"Ghostbusters"`,
location `"55 Central Park W<br>Manhattan"`, coordinates `"40.7"`/`"-74.0"`. -/
def gbRow : Row :=
  mkDataRow (dCell "Ghostbusters") (dCell "55 Central Park W<br>Manhattan")
    (dCell "40.7") (dCell "-74.0")

/-- The end-to-end example document: three header rows plus `gbRow`. -/
def gbDoc : Document := mkDoc [headerRow, headerRow, headerRow, gbRow]

/-- The record `gbRow` yields. -/
def gbRecord : LocationRecord :=
  ⟨some "Ghostbusters", "55 Central Park W, Manhattan", .finite 407 10, .finite (-74) 1,
    some "N/A", some "N/A"⟩

/-- A data row whose latitude cell text is the non-finite literal `"inf"`. -/
def infRow : Row := mkDataRow (dCell "Ghostbusters") eCell (dCell "inf") (dCell "-74.0")

/-- A document whose single data row has latitude `"inf"`. -/
def infDoc : Document := mkDoc [headerRow, headerRow, headerRow, infRow]

/-- The record `infRow` yields: its latitude is positive infinity. -/
def infRecord : LocationRecord :=
  ⟨some "Ghostbusters", "", .pinf, .finite (-74) 1, some "N/A", some "N/A"⟩

/-- A data row whose film cell text is exactly `"N/A"`, with valid
coordinates. -/
def naRow : Row := mkDataRow (dCell "N/A") eCell (dCell "40.7") (dCell "-74.0")

/-- A data row whose latitude cell text is the empty string. -/
def emptyLatRow : Row := mkDataRow (dCell "Film A") eCell (dCell "") (dCell "-74.0")

/-- A data row whose latitude cell text is the non-numeric `"abc"`. -/
def abcLatRow : Row := mkDataRow (dCell "Film B") eCell (dCell "abc") (dCell "-74.0")

/-- A header-only document: the correct worksheet with exactly three rows. -/
def hdrOnlyDoc : Document := mkDoc [headerRow, headerRow, headerRow]

/-- A document whose only worksheet is named `"Other"`. -/
def otherDoc : Document := ⟨[⟨some "Other", some ⟨[]⟩⟩]⟩

/-- A provider that always answers with a valid "no match" response. -/
def provider0 : String → GeoReply := fun _ => .notFound

/-! ### Helper lemmas -/

theorem rowStep_record_inv (row : Row) (rec : LocationRecord)
    (h : rowStep row = .record rec) :
    rec.film = filmOf row ∧ filmOf row ≠ some "N/A" := by
  unfold rowStep at h
  split at h
  · split at h
    · simp at h
    · split at h
      · simp at h
      · simp at h
      · split at h
        · split at h
          · rename_i hfilm
            cases h
            exact ⟨rfl, hfilm⟩
          · simp at h
        · simp at h
  · simp at h

theorem rowStep_skip_of_falsy_lat (row : Row) (rec : LocationRecord)
    (hlat : latStrOf row = none ∨ latStrOf row = some "") :
    rowStep row ≠ .record rec := by
  intro h
  have hok : pyFloatIfTruthy (latStrOf row) = .ok none := by
    rcases hlat with h1 | h1 <;> rw [h1] <;> rfl
  unfold rowStep at h
  split at h
  · split at h
    · simp at h
    · split at h <;> simp_all
  · simp at h

theorem rowStep_skip_of_falsy_lon (row : Row) (rec : LocationRecord)
    (hlon : lonStrOf row = none ∨ lonStrOf row = some "") :
    rowStep row ≠ .record rec := by
  intro h
  have hok : pyFloatIfTruthy (lonStrOf row) = .ok none := by
    rcases hlon with h1 | h1 <;> rw [h1] <;> rfl
  unfold rowStep at h
  split at h
  · split at h
    · simp at h
    · split at h <;> simp_all
  · simp at h

theorem processRowsAux_eq_filterMap :
    ∀ (rows : List Row) (acc l : List LocationRecord),
      processRowsAux acc rows = some l → l = acc ++ rows.filterMap rowRecord? := by
  intro rows
  induction rows with
  | nil =>
    intro acc l h
    simp [processRowsAux] at h
    simp [h]
  | cons r rs ih =>
    intro acc l h
    unfold processRowsAux at h
    cases hr : rowStep r with
    | fatal => rw [hr] at h; simp at h
    | skip =>
      rw [hr] at h
      have := ih acc l h
      simp [List.filterMap_cons, rowRecord?, hr, this]
    | record rec =>
      rw [hr] at h
      have := ih (acc ++ [rec]) l h
      simp [List.filterMap_cons, rowRecord?, hr, this]

theorem load_ok_inv (doc : Document) (l : List LocationRecord)
    (h : load_and_parse_xml_data doc = .ok l) :
    ∃ ws t, doc.worksheets.find? wsMatch = some ws ∧ ws.table = some t ∧
      processRowsAux [] (t.rows.drop 3) = some l := by
  unfold load_and_parse_xml_data at h
  split at h
  · simp at h
  · rename_i ws hws
    split at h
    · simp at h
    · rename_i t ht
      split at h
      · simp at h
      · split at h
        · simp at h
        · simp at h
        · rename_i res hres
          simp at h
          exact ⟨ws, t, hws, ht, by rw [hres, h]⟩

theorem plotLoop_eq (l : List LocationRecord) :
    plotLoop l = (l.map mkMarker, l.length) := by
  induction l with
  | nil => rfl
  | cons r rs ih => simp [plotLoop, ih]

theorem lookup_append_single (cache : GeoCache) (q : String) (v : Option (ℚ × ℚ))
    (h : cache.lookup q = none) : (cache ++ [(q, v)]).lookup q = some v := by
  induction cache with
  | nil => simp [List.lookup]
  | cons p rest ih =>
    rw [List.lookup] at h
    rw [List.cons_append, List.lookup]
    cases hq : (q == p.1) with
    | true => rw [hq] at h; simp at h
    | false =>
      rw [hq] at h
      exact ih h

theorem rowRecord?_eq_some (row : Row) (rec : LocationRecord)
    (h : rowRecord? row = some rec) : rowStep row = .record rec := by
  unfold rowRecord? at h
  split at h
  · rename_i r heq
    simp at h
    rw [← h]
    exact heq
  · simp at h

/-! ### Claims -/

/-- The C1 claim as the spec states it: every record of a successful
extraction has a non-missing film value and finite latitude and longitude. -/
def extractionClaimC1 : Prop :=
  ∀ doc l, load_and_parse_xml_data doc = .ok l →
    ∀ r ∈ l, (r.film ≠ none ∧ r.film ≠ some "N/A") ∧
      r.latitude.isFinite = true ∧ r.longitude.isFinite = true

/-- C1 (counterexample): the document whose data row has latitude cell text
`"inf"` extracts successfully to a single record whose latitude is not
finite — the extractor checks only that the coordinate strings parse, never
finiteness — so the claim as stated is false. -/
theorem extraction_c1_counterexample :
    load_and_parse_xml_data infDoc = .ok [infRecord] ∧
    infRecord.latitude.isFinite = false ∧
    ¬ extractionClaimC1 := by
  refine ⟨by decide, by decide, ?_⟩
  intro hclaim
  have h := hclaim infDoc [infRecord] (by decide) infRecord (by simp)
  exact absurd h.2.1 (by decide)

/-- C1 (amended): every record in a successful extraction has a film value
different from the `"N/A"` sentinel, and a row whose latitude or longitude
cell is missing or empty contributes no record (it is discarded). -/
theorem extraction_record_validity (doc : Document) (l : List LocationRecord)
    (h : load_and_parse_xml_data doc = .ok l) :
    (∀ r ∈ l, r.film ≠ some "N/A") ∧
    (∀ row rec, ((latStrOf row = none ∨ latStrOf row = some "") ∨
                 (lonStrOf row = none ∨ lonStrOf row = some "")) →
      rowStep row ≠ .record rec) := by
  constructor
  · intro r hr
    obtain ⟨ws, t, -, -, hp⟩ := load_ok_inv doc l h
    have hl := processRowsAux_eq_filterMap _ _ _ hp
    rw [hl] at hr
    simp only [List.nil_append, List.mem_filterMap] at hr
    obtain ⟨row, -, hrow⟩ := hr
    have hstep := rowRecord?_eq_some row r hrow
    have hinv := rowStep_record_inv row r hstep
    rw [hinv.1]
    exact hinv.2
  · intro row rec hfalsy
    rcases hfalsy with hlat | hlon
    · exact rowStep_skip_of_falsy_lat row rec hlat
    · exact rowStep_skip_of_falsy_lon row rec hlon

/-- C1 (witness): the amended theorem applied to the end-to-end example
document. -/
theorem extraction_record_validity_witness : gbRecord.film ≠ some "N/A" :=
  (extraction_record_validity gbDoc [gbRecord] (by decide)).1 gbRecord (by simp)

/-- The C2 claim as the spec states it: over any sequence of lookups whose
query strings are pairwise distinct, issued in nondecreasing clock order, the
component's outgoing requests are spaced by at least the 1-second minimum
delay, the limiter state being shared process-wide. -/
def rateLimitGlobalClaim : Prop :=
  ∀ (provider : String → GeoReply) (cache : GeoCache) (lookups : List (String × ℚ)),
    (lookups.map Prod.fst).Nodup →
    List.Chain' (fun a b => a.2 ≤ b.2) lookups →
    spacedBy 1 (runLookups provider cache lookups).2

/-- C2: the rate limiting the claim describes does not happen.  Because
`geocode_location` constructs a fresh `RateLimiter` inside every call
(source line 100), no last-request state is shared between calls, and two
distinct uncached lookups issued back to back go out at the very same clock
time — spacing 0, not ≥ 1 second. -/
theorem geocode_rate_limiting_not_global :
    (runLookups provider0 [] [("London", 0), ("Paris", 0)]).2 =
      [⟨"London", 0⟩, ⟨"Paris", 0⟩] ∧
    ¬ rateLimitGlobalClaim := by
  refine ⟨rfl, ?_⟩
  intro hclaim
  have h := hclaim provider0 [] [("London", 0), ("Paris", 0)] (by decide)
    (by simp [List.chain'_cons])
  unfold spacedBy at h
  rw [show (runLookups provider0 [] [("London", 0), ("Paris", 0)]).2 =
      [⟨"London", 0⟩, ⟨"Paris", 0⟩] from rfl] at h
  have hle := (List.chain'_cons.mp h).1
  norm_num at hle

/-- The C3 claim as the spec states it: every empty or whitespace-only query
returns "no result" immediately, with no outgoing request. -/
def emptyOrWhitespaceShortCircuitClaim : Prop :=
  ∀ (provider : String → GeoReply) (q : String) (now : ℚ),
    isWhitespaceOnly q = true → geocode_location provider q now = (none, [])

/-- C3 (counterexample): the single-space query is whitespace-only, yet the
code's guard `if not query` is false for it (only the empty string is falsy),
so the request is sent to the provider — the claim as stated is false. -/
theorem geocode_whitespace_counterexample :
    isWhitespaceOnly " " = true ∧
    (geocode_location provider0 " " 0).2 = [⟨" ", 0⟩] ∧
    ¬ emptyOrWhitespaceShortCircuitClaim := by
  refine ⟨by decide, rfl, ?_⟩
  intro hclaim
  have h := hclaim provider0 " " 0 (by decide)
  have h2 : (geocode_location provider0 " " 0).2 = [⟨" ", 0⟩] := rfl
  rw [h] at h2
  simp at h2

/-- C3 (amended): for the empty query string, lookup returns "no result"
immediately and issues no request to the provider. -/
theorem geocode_empty_query_no_request (provider : String → GeoReply) (now : ℚ) :
    geocode_location provider "" now = (none, []) := by
  simp [geocode_location]

/-- C4: the two cleaning examples hold, and the 4-row end-to-end document
(three header rows plus the Ghostbusters row) extracts to exactly one record
whose display text is `"55 Central Park W, Manhattan"`. -/
theorem cleaning_examples_and_end_to_end :
    cleanLocationText "Main St<br>Suite 4" = "Main St, Suite 4" ∧
    cleanLocationText ",Main St," = "Main St" ∧
    load_and_parse_xml_data gbDoc = .ok [gbRecord] ∧
    gbRecord.locationDisplayText = "55 Central Park W, Manhattan" :=
  ⟨by decide, by decide, by decide, rfl⟩

/-- C5: a lookup whose exact query string was looked up before returns the
previously cached outcome — whatever it was, a found pair or a cached
"no result" — with the cache unchanged and no outgoing request (hence no
rate-limit wait). -/
theorem repeated_query_uses_cache (provider : String → GeoReply) (cache : GeoCache)
    (q : String) (now now2 : ℚ) (v : Option (ℚ × ℚ)) (c1 : GeoCache)
    (reqs : List GeoRequest)
    (h : geocode_location_cached provider cache q now = (v, c1, reqs)) :
    geocode_location_cached provider c1 q now2 = (v, c1, []) := by
  unfold geocode_location_cached at h
  cases hc : cache.lookup q with
  | some v0 =>
    rw [hc] at h
    simp at h
    obtain ⟨hv, hcache, -⟩ := h
    unfold geocode_location_cached
    rw [← hcache, hc, ← hv]
  | none =>
    rw [hc] at h
    simp at h
    obtain ⟨hv, hcache, -⟩ := h
    unfold geocode_location_cached
    rw [← hcache]
    rw [lookup_append_single cache q (geocode_location provider q now).1 hc]
    rw [← hv]

/-- C5 (witness): after a first "London" lookup that cached a "no result"
outcome, repeating the identical query at a later clock time returns the
cached outcome with no request. -/
theorem repeated_query_uses_cache_witness :
    geocode_location_cached provider0 [("London", none)] "London" 9 =
      (none, [("London", none)], []) :=
  repeated_query_uses_cache provider0 [] "London" 0 9 none [("London", none)]
    [⟨"London", 0⟩] rfl

/-- C6: a row whose latitude cell is the empty string and a row whose
latitude cell is `"abc"` are both skipped (given at least the location cell
is well formed), processing continues with the remaining rows, and the two
cases take distinct paths: the empty string is "no coordinate" (`ok none`,
no exception) while `"abc"` is a conversion failure (`ValueError`, modelled
as `error`). -/
theorem lat_empty_vs_malformed (rowE rowA : Row) (acc : List LocationRecord)
    (rest : List Row)
    (hE : latStrOf rowE = some "") (hA : latStrOf rowA = some "abc")
    (hEloc : locationTextOf rowE ≠ none) (hAloc : locationTextOf rowA ≠ none) :
    pyFloatIfTruthy (latStrOf rowE) = .ok none ∧
    pyFloatIfTruthy (latStrOf rowA) = .error () ∧
    rowStep rowE = .skip ∧ rowStep rowA = .skip ∧
    processRowsAux acc (rowE :: rest) = processRowsAux acc rest ∧
    processRowsAux acc (rowA :: rest) = processRowsAux acc rest := by
  have hokE : pyFloatIfTruthy (latStrOf rowE) = .ok none := by rw [hE]; rfl
  have hokA : pyFloatIfTruthy (latStrOf rowA) = .error () := by rw [hA]; rfl
  have hskipE : rowStep rowE = .skip := by
    unfold rowStep
    split
    · split
      · simp_all
      · rw [hokE]
        cases hlon : pyFloatIfTruthy (lonStrOf rowE) <;> rfl
    · rfl
  have hskipA : rowStep rowA = .skip := by
    unfold rowStep
    split
    · split
      · simp_all
      · rw [hokA]
    · rfl
  exact ⟨hokE, hokA, hskipE, hskipA,
    by rw [processRowsAux, hskipE],
    by rw [processRowsAux, hskipA]⟩

/-- C6 (witness): the theorem at the two concrete rows, continuing with the
Ghostbusters row. -/
theorem lat_empty_vs_malformed_witness :
    pyFloatIfTruthy (latStrOf emptyLatRow) = .ok none ∧
    pyFloatIfTruthy (latStrOf abcLatRow) = .error () ∧
    rowStep emptyLatRow = .skip ∧ rowStep abcLatRow = .skip ∧
    processRowsAux [] (emptyLatRow :: [gbRow]) = processRowsAux [] [gbRow] ∧
    processRowsAux [] (abcLatRow :: [gbRow]) = processRowsAux [] [gbRow] :=
  lat_empty_vs_malformed emptyLatRow abcLatRow [] [gbRow]
    (by decide) (by decide) (by decide) (by decide)

/-- C7: when no worksheet is named `"Full Map List"`, or the found worksheet
has no table, extraction returns a MissingSection-class error (it does not
crash: the result is a value), and the caller sees no data (`data_df` is
`None`, which stops the app). -/
theorem missing_section_failure (doc : Document)
    (h : doc.worksheets.find? wsMatch = none ∨
         ∃ ws, doc.worksheets.find? wsMatch = some ws ∧ ws.table = none) :
    (loadError? doc).any ExtractErr.isMissingSection = true ∧ data_df doc = none := by
  rcases h with h | ⟨ws, hws, ht⟩
  · have hload : load_and_parse_xml_data doc = .error .worksheetNotFound := by
      simp [load_and_parse_xml_data, h]
    unfold loadError? data_df
    rw [hload]
    exact ⟨rfl, rfl⟩
  · have hload : load_and_parse_xml_data doc = .error .tableNotFound := by
      simp [load_and_parse_xml_data, hws, ht]
    unfold loadError? data_df
    rw [hload]
    exact ⟨rfl, rfl⟩

/-- C7 (witness): the theorem at a document whose only worksheet is named
`"Other"`. -/
theorem missing_section_failure_witness :
    (loadError? otherDoc).any ExtractErr.isMissingSection = true ∧
    data_df otherDoc = none :=
  missing_section_failure otherDoc (Or.inl (by decide))

/-- C8: a document with the correct worksheet and table but at most three
rows fails with an EmptyResult-class error, and the extraction result depends
only on the rows after the first three — the three header rows are skipped
unconditionally, regardless of their content. -/
theorem headers_skipped_and_header_only_empty (doc : Document) (ws : Worksheet)
    (t : Table)
    (hws : doc.worksheets.find? wsMatch = some ws) (ht : ws.table = some t)
    (hlen : t.rows.length ≤ 3) :
    load_and_parse_xml_data doc = .error .notEnoughRows ∧
    ExtractErr.notEnoughRows.isEmptyResult = true ∧
    ∀ rows rows', rows.drop 3 = rows'.drop 3 →
      load_and_parse_xml_data (mkDoc rows) = load_and_parse_xml_data (mkDoc rows') := by
  refine ⟨?_, rfl, ?_⟩
  · simp [load_and_parse_xml_data, hws, ht, hlen]
  · intro rows rows' hd
    have hfind : ∀ rs : List Row,
        (mkDoc rs).worksheets.find? wsMatch = some ⟨some "Full Map List", some ⟨rs⟩⟩ :=
      fun rs => rfl
    by_cases h3 : rows.length ≤ 3
    · have hnil : rows.drop 3 = [] := by
        apply List.length_eq_zero.mp
        rw [List.length_drop]
        omega
      have hnil' : rows'.drop 3 = [] := by rw [← hd]; exact hnil
      have h3' : rows'.length ≤ 3 := by
        have hld := List.length_drop 3 rows'
        rw [hnil'] at hld
        simp at hld
        omega
      simp [load_and_parse_xml_data, hfind, h3, h3']
    · have h3' : ¬ rows'.length ≤ 3 := by
        intro hle
        have hnil' : rows'.drop 3 = [] := by
          apply List.length_eq_zero.mp
          rw [List.length_drop]
          omega
        rw [← hd] at hnil'
        have hld := List.length_drop 3 rows
        rw [hnil'] at hld
        simp at hld
        omega
      simp [load_and_parse_xml_data, hfind, h3, h3', hd]

/-- C8 (witness): the header-only document fails with `notEnoughRows`, and
replacing the three header rows by arbitrary other rows leaves the
extraction result unchanged. -/
theorem headers_skipped_and_header_only_empty_witness :
    load_and_parse_xml_data hdrOnlyDoc = .error .notEnoughRows ∧
    load_and_parse_xml_data (mkDoc [headerRow, headerRow, headerRow, gbRow]) =
      load_and_parse_xml_data (mkDoc [junkRow, junkRow, junkRow, gbRow]) :=
  ⟨(headers_skipped_and_header_only_empty hdrOnlyDoc _ _ rfl rfl (by decide)).1,
   (headers_skipped_and_header_only_empty hdrOnlyDoc _ _ rfl rfl (by decide)).2.2
     _ _ (by decide)⟩

/-- C9: a successful extraction's records are exactly the per-row records of
the data rows in source order (skipped rows removed), and the post-load
consumers are read-only: the plotting loop produces one marker per record in
the same order (plotting every record), and the raw-data table shows the
extraction output itself. -/
theorem record_order_preserved_and_read_only (doc : Document)
    (l : List LocationRecord)
    (h : load_and_parse_xml_data doc = .ok l) :
    (∃ ws t, doc.worksheets.find? wsMatch = some ws ∧ ws.table = some t ∧
        l = (t.rows.drop 3).filterMap rowRecord?) ∧
    plotLoop l = (l.map mkMarker, l.length) ∧
    shownTable doc = some l := by
  obtain ⟨ws, t, hws, ht, hp⟩ := load_ok_inv doc l h
  refine ⟨⟨ws, t, hws, ht, ?_⟩, plotLoop_eq l, ?_⟩
  · have := processRowsAux_eq_filterMap _ _ _ hp
    simpa using this
  · unfold shownTable data_df
    rw [h]
    rfl

/-- C9 (witness): the theorem at the end-to-end example document. -/
theorem record_order_preserved_and_read_only_witness :
    plotLoop [gbRecord] = ([mkMarker gbRecord], 1) ∧
    shownTable gbDoc = some [gbRecord] :=
  ⟨(record_order_preserved_and_read_only gbDoc [gbRecord] (by decide)).2.1,
   (record_order_preserved_and_read_only gbDoc [gbRecord] (by decide)).2.2⟩

/-- C10: a data row whose film cell text is exactly `"N/A"` never contributes
a record — the literal string doubles as the internal missing-film sentinel,
so the acceptance guard `film != 'N/A'` rejects it even when both
coordinates are valid. -/
theorem film_na_sentinel_excluded (row : Row) (rec : LocationRecord)
    (hfilm : cellDataText row.cells 0 = some (some "N/A")) :
    rowStep row ≠ .record rec := by
  intro h
  have hinv := rowStep_record_inv row rec h
  apply hinv.2
  unfold filmOf
  rw [hfilm]

/-- C10 (witness): the theorem at the concrete `"N/A"`-film row with valid
coordinates, plus the end-to-end check that a document containing that row
and the Ghostbusters row extracts to the Ghostbusters record alone. -/
theorem film_na_sentinel_excluded_witness :
    rowStep naRow ≠ .record gbRecord ∧
    load_and_parse_xml_data (mkDoc [headerRow, headerRow, headerRow, naRow, gbRow]) =
      .ok [gbRecord] :=
  ⟨film_na_sentinel_excluded naRow gbRecord (by decide), by decide⟩

end FilmMap
